import Mathlib

/-!
Verification development for the uptime-monitor repository.

The engine under study is `services/monitorService.js`: a background
sweep that probes each registered URL, classifies it up/down, persists
history, detects status transitions and dispatches email notifications.

The JavaScript is embedded shallowly:

* Machine state (the SQLite tables `monitors`, `monitor_status_history`,
  `notification_log`) becomes the record `DB`; timestamps are modelled
  as natural numbers of milliseconds.
* External effects (the HTTP fetch, the email delegate, store
  availability) are inputs: every `await` site that can fail takes its
  outcome from an environment record.
* A JavaScript `async` function that can reject becomes a function
  returning `Outcome` (final state plus an optional uncaught error);
  `try`/`catch` becomes the `swallow` combinator, `await` sequencing
  becomes `andThen`.
* Calls to the external notifier delegate are additionally recorded in
  a ghost trace `DB.dispatches`, so that "a notification was dispatched"
  is observable even when the delegate throws.
-/

/-- Monitor status as stored in the `status` column: `pending`, `up` or `down`. -/
inductive Status where
  | pending
  | up
  | down
deriving DecidableEq

/-- A row of the `monitors` table, joined with the owner's email as the
sweep query does (`SELECT m.*, u.email as user_email ...`). -/
structure Monitor where
  id : Nat
  user_email : String
  url : String
  name : String
  status : Status
  last_checked : Option Nat
  response_time : Option Nat
  notifications_enabled : Bool
  last_notification_sent : Option Nat
deriving DecidableEq

/-- A row of `monitor_status_history` (append-only). -/
structure StatusCheckRecord where
  monitor_id : Nat
  status : Status
  response_time : Option Nat
  checked_at : Nat
  error_message : Option String
deriving DecidableEq

/-- A row of `notification_log` (append-only). -/
structure NotificationLogEntry where
  monitor_id : Nat
  user_email : String
  notification_type : String
  success : Bool
  error_message : Option String
deriving DecidableEq

/-- Ghost record of one call to the external email delegate
(`emailService.sendDownNotification` / `sendUpNotification`). -/
inductive Dispatch where
  | down (monitor_id : Nat) (user_email : String)
  | up (monitor_id : Nat) (user_email : String) (downDuration : Option String)
deriving DecidableEq

/-- The persistent store, plus the ghost dispatch trace. -/
structure DB where
  monitors : List Monitor
  history : List StatusCheckRecord
  notification_log : List NotificationLogEntry
  dispatches : List Dispatch
deriving DecidableEq

/-- Result of running one `async` body: the state after it, and
`some e` when it ended in an uncaught thrown error `e`. -/
structure Outcome where
  db : DB
  err : Option String
deriving DecidableEq

/-- `await` sequencing: run `f` on the resulting state unless the first
step threw. -/
def andThen (o : Outcome) (f : DB → Outcome) : Outcome :=
  match o.err with
  | some _ => o
  | none => f o.db

/-- A `try { ... } catch (e) { console.log(e) }` wrapper: the thrown
error is logged and discarded, the state at the throw point is kept. -/
def swallow (o : Outcome) : Outcome :=
  { db := o.db, err := none }

/-- Outcome of the underlying `fetch` call: a settled response
(`ok` flag and status code), or a rejection carrying the error's
`name` and `message`. A 30s timeout surfaces as a rejection with
name `AbortError`. -/
inductive FetchOutcome where
  | resp (ok : Bool) (code : Nat)
  | err (name : String) (msg : String)
deriving DecidableEq

/-- The value `checkUrl` resolves with. -/
structure ProbeResult where
  status : Status
  responseTime : Nat
  statusCode : Option Nat
  error : Option String
deriving DecidableEq

/-- `checkUrl(url)` (monitorService.js lines 158-198): the whole body is
wrapped in `try`/`catch` and both branches return, so the function is
total in the fetch outcome — it never rejects. `elapsed` stands for
`Date.now() - startTime`. -/
def checkUrl (outcome : FetchOutcome) (elapsed : Nat) : ProbeResult :=
  match outcome with
  | .resp ok code =>
      { status := if ok then .up else .down
        responseTime := elapsed
        statusCode := some code
        error := if ok then none else some ("HTTP " ++ toString code) }
  | .err name msg =>
      { status := .down
        responseTime := elapsed
        statusCode := none
        error := some (if name = "AbortError" then "Timeout" else msg) }

/-- `formatDuration(milliseconds)` (lines 338-353), restricted to the
nonnegative inputs the service produces. -/
def formatDuration (milliseconds : Nat) : String :=
  let seconds := milliseconds / 1000
  let minutes := seconds / 60
  let hours := minutes / 60
  let days := hours / 24
  if days > 0 then
    toString days ++ " day" ++ (if days ≠ 1 then "s" else "") ++ " " ++
      toString (hours % 24) ++ " hour" ++ (if hours % 24 ≠ 1 then "s" else "")
  else if hours > 0 then
    toString hours ++ " hour" ++ (if hours ≠ 1 then "s" else "") ++ " " ++
      toString (minutes % 60) ++ " minute" ++ (if minutes % 60 ≠ 1 then "s" else "")
  else if minutes > 0 then
    toString minutes ++ " minute" ++ (if minutes ≠ 1 then "s" else "") ++ " " ++
      toString (seconds % 60) ++ " second" ++ (if seconds % 60 ≠ 1 then "s" else "")
  else
    toString seconds ++ " second" ++ (if seconds ≠ 1 then "s" else "")

/-- Outcome of one call to the email delegate: it either resolves with a
`{success, error}` value or rejects with an error message. -/
inductive DelegateOutcome where
  | returns (success : Bool) (error : Option String)
  | throws (msg : String)
deriving DecidableEq

/-- Outcome of the `this.checkUrl(monitor.url)` await inside
`checkMonitor`: the promise resolves with a fetch outcome, or rejects
(the `catch` at lines 140-143 handles the rejection). -/
inductive ProberOutcome where
  | resolves (fetch : FetchOutcome) (elapsed : Nat)
  | rejects (msg : String)
deriving DecidableEq

/-- Environment of one `checkMonitor` run: the prober outcome, the
current time, the delegate outcomes for a possible down/up email, and
one failure flag per store statement (`true` = that `db.run`/`db.get`
rejects with a store error). -/
structure CheckEnv where
  prober : ProberOutcome
  now : Nat
  updateStatusFails : Bool
  logCheckFails : Bool
  postDownUpdateFails : Bool
  downDelegate : DelegateOutcome
  downLogFails : Bool
  downUpdateFails : Bool
  upQueryFails : Bool
  upDelegate : DelegateOutcome
  upLogFails : Bool
deriving DecidableEq

/-- `updateMonitorStatus` (lines 203-209): overwrite the monitor row's
`status`, `last_checked`, `response_time`. -/
def updateMonitorStatus (monitorId : Nat) (status : Status)
    (responseTime : Option Nat) (now : Nat) (fails : Bool) (db : DB) : Outcome :=
  if fails then { db := db, err := some "store error" }
  else
    { db := { db with monitors := db.monitors.map fun m =>
        if m.id = monitorId then
          { m with status := status, last_checked := some now, response_time := responseTime }
        else m }
      err := none }

/-- The `UPDATE monitors SET last_notification_sent = CURRENT_TIMESTAMP`
statement (it appears at lines 224-228 and 257-261). -/
def setLastNotificationSent (monitorId : Nat) (now : Nat) (fails : Bool) (db : DB) : Outcome :=
  if fails then { db := db, err := some "store error" }
  else
    { db := { db with monitors := db.monitors.map fun m =>
        if m.id = monitorId then { m with last_notification_sent := some now } else m }
      err := none }

/-- `logStatusCheck` (lines 316-322): append one history row. -/
def logStatusCheck (monitorId : Nat) (status : Status) (responseTime : Option Nat)
    (errorMessage : Option String) (now : Nat) (fails : Bool) (db : DB) : Outcome :=
  if fails then { db := db, err := some "store error" }
  else
    { db := { db with history := db.history ++
        [{ monitor_id := monitorId, status := status, response_time := responseTime
           checked_at := now, error_message := errorMessage }] }
      err := none }

/-- `logNotification` (lines 327-333): append one notification-log row. -/
def logNotification (monitorId : Nat) (userEmail : String) (ty : String)
    (success : Bool) (errorMessage : Option String) (fails : Bool) (db : DB) : Outcome :=
  if fails then { db := db, err := some "store error" }
  else
    { db := { db with notification_log := db.notification_log ++
        [{ monitor_id := monitorId, user_email := userEmail, notification_type := ty
           success := success, error_message := errorMessage }] }
      err := none }

/-- The rows the `db.get` at lines 277-283 ranges over: history rows of
the monitor with status `down`. -/
def downRecords (monitorId : Nat) (hist : List StatusCheckRecord) :
    List StatusCheckRecord :=
  hist.filter fun r => decide (r.monitor_id = monitorId ∧ r.status = Status.down)

/-- One step of selecting the row with the greatest `checked_at`; on
equal timestamps the later-inserted row wins. -/
def pickLater (acc : Option StatusCheckRecord) (r : StatusCheckRecord) :
    Option StatusCheckRecord :=
  match acc with
  | none => some r
  | some b => if b.checked_at ≤ r.checked_at then some r else some b

/-- The `db.get` at lines 277-283: most recent `down` history row of the
monitor (`ORDER BY checked_at DESC LIMIT 1`). -/
def lastDownRecord (monitorId : Nat) (hist : List StatusCheckRecord) :
    Option StatusCheckRecord :=
  (downRecords monitorId hist).foldl pickLater none

/-- The `downDuration` computation at lines 274-292: duration text from
the most recent `down` history row, falling back to
`last_notification_sent`, else absent. -/
def downDurationOf (m : Monitor) (now : Nat) (hist : List StatusCheckRecord) :
    Option String :=
  match lastDownRecord m.id hist with
  | some r => some (formatDuration (now - r.checked_at))
  | none =>
      match m.last_notification_sent with
      | some t => some (formatDuration (now - t))
      | none => none

/-- Body of `sendDownNotification` (lines 240-262), i.e. the inside of
its `try`. The delegate call is recorded in the ghost trace; the
unused `errorMessage` parameter of the JS function is omitted. -/
def sendDownBody (m : Monitor) (env : CheckEnv) (db : DB) : Outcome :=
  let db1 := { db with dispatches := db.dispatches ++ [Dispatch.down m.id m.user_email] }
  match env.downDelegate with
  | .throws e => { db := db1, err := some e }
  | .returns success errTxt =>
      andThen (logNotification m.id m.user_email "down" success errTxt env.downLogFails db1)
        (fun db2 =>
          if success then setLastNotificationSent m.id env.now env.downUpdateFails db2
          else { db := db2, err := none })

/-- `sendDownNotification` (lines 239-266): the body under the
swallowing `catch`. Never rejects. -/
def sendDownNotification (m : Monitor) (env : CheckEnv) (db : DB) : Outcome :=
  swallow (sendDownBody m env db)

/-- Body of `sendUpNotification` (lines 272-307): query the most recent
`down` history row, build the duration text, call the delegate, log. -/
def sendUpBody (m : Monitor) (env : CheckEnv) (db : DB) : Outcome :=
  if env.upQueryFails then { db := db, err := some "store error" }
  else
    let downDuration : Option String := downDurationOf m env.now db.history
    let db1 := { db with dispatches :=
      db.dispatches ++ [Dispatch.up m.id m.user_email downDuration] }
    match env.upDelegate with
    | .throws e => { db := db1, err := some e }
    | .returns success errTxt =>
        logNotification m.id m.user_email "up" success errTxt env.upLogFails db1

/-- `sendUpNotification` (lines 271-311): the body under the swallowing
`catch`. Never rejects. -/
def sendUpNotification (m : Monitor) (env : CheckEnv) (db : DB) : Outcome :=
  swallow (sendUpBody m env db)

/-- `handleStatusChange` (lines 214-234). `m` is the row object fetched
at sweep start, so `previousStatus` is the status before this check even
though `updateMonitorStatus` already overwrote the table. Note the
second `last_notification_sent` update in the down branch is
unconditional and outside any `try`. -/
def handleStatusChange (m : Monitor) (newStatus : Status) (env : CheckEnv) (db : DB) :
    Outcome :=
  let previousStatus := m.status
  if previousStatus ≠ newStatus ∧ m.notifications_enabled then
    if newStatus = Status.down ∧ previousStatus = Status.up then
      andThen (sendDownNotification m env db) (fun db1 =>
        setLastNotificationSent m.id env.now env.postDownUpdateFails db1)
    else if newStatus = Status.up ∧ previousStatus = Status.down then
      sendUpNotification m env db
    else { db := db, err := none }
  else { db := db, err := none }

/-- The classification `checkMonitor` ends up with (lines 130-143):
`checkUrl`'s result on resolution; on rejection the `catch` keeps
`status = 'down'`, `responseTime = null` and takes the error message. -/
def probeOf (p : ProberOutcome) : Status × Option Nat × Option String :=
  match p with
  | .resolves f elapsed =>
      let r := checkUrl f elapsed
      (r.status, some r.responseTime, r.error)
  | .rejects msg => (Status.down, none, some msg)

/-- `checkMonitor` (lines 129-153): probe, overwrite the monitor row,
handle a possible transition, then append the history row. Only the
prober call sits inside a `try`; a store rejection propagates. -/
def checkMonitor (m : Monitor) (env : CheckEnv) (db : DB) : Outcome :=
  let probe := probeOf env.prober
  andThen (updateMonitorStatus m.id probe.1 probe.2.1 env.now env.updateStatusFails db)
    (fun db1 =>
      andThen (handleStatusChange m probe.1 env db1) (fun db2 =>
        logStatusCheck m.id probe.1 probe.2.1 probe.2.2 env.now env.logCheckFails db2))

/-- The `for (const monitor of monitors)` loop inside
`checkAllMonitors` (lines 114-118); the 1s inter-check sleep has no
observable effect in the model. -/
def sweepLoop (pairs : List (Monitor × CheckEnv)) (db : DB) : Outcome :=
  match pairs with
  | [] => { db := db, err := none }
  | (m, env) :: rest => andThen (checkMonitor m env db) (sweepLoop rest)

/-- `checkAllMonitors` (lines 104-124): the loop over the loaded monitor
rows, wrapped in a single sweep-level `try`/`catch` that logs and
swallows. `pairs` is the loaded row list paired with each check's
environment. -/
def checkAllMonitors (pairs : List (Monitor × CheckEnv)) (db : DB) : Outcome :=
  swallow (sweepLoop pairs db)

/-- `db.monitors.find` by id, as a sweep that re-reads the store would
locate the row of a given monitor. -/
def findMonitor (monitorId : Nat) (db : DB) : Option Monitor :=
  db.monitors.find? fun m => m.id == monitorId

/-- Repeated checks of one monitor across sweeps: each sweep re-reads
the row from the store and runs `checkMonitor` on it; an error thrown
from one sweep is swallowed by that sweep's `catch` and the next sweep
still runs. -/
def runChecks (monitorId : Nat) (envs : List CheckEnv) (db : DB) : DB :=
  match envs with
  | [] => db
  | env :: rest =>
      match findMonitor monitorId db with
      | none => runChecks monitorId rest db
      | some m => runChecks monitorId rest (checkMonitor m env db).db

/-- The records `getMonitorStats` aggregates over (lines 366-377):
history rows of the monitor with `checked_at` inside the trailing
window of `hours` hours. -/
def windowRecords (monitorId hours now : Nat) (hist : List StatusCheckRecord) :
    List StatusCheckRecord :=
  hist.filter fun r => decide (r.monitor_id = monitorId ∧ now - hours * 3600000 < r.checked_at)

/-- JavaScript `x.toFixed(2)` on a nonnegative value, as a rational:
round to the nearest hundredth. -/
def toFixed2 (q : ℚ) : ℚ := (round (q * 100) : ℤ) / 100

/-- The `uptime_percentage` field computed at lines 379-383:
`(up_checks / total_checks * 100).toFixed(2)` when the window holds at
least one check, else `0`. -/
def uptimePercentageOf (recs : List StatusCheckRecord) : ℚ :=
  let total := recs.length
  let up := (recs.filter fun r => decide (r.status = Status.up)).length
  if 0 < total then toFixed2 ((up : ℚ) / (total : ℚ) * 100) else 0

/-- `getMonitorStats(monitorId, hours)` restricted to its
`uptime_percentage` output (lines 365-386). -/
def getMonitorStatsUptime (monitorId hours now : Nat) (hist : List StatusCheckRecord) : ℚ :=
  uptimePercentageOf (windowRecords monitorId hours now hist)

/-- The history row one `checkMonitor` run appends. -/
def checkRecordOf (m : Monitor) (env : CheckEnv) : StatusCheckRecord :=
  { monitor_id := m.id
    status := (probeOf env.prober).1
    response_time := (probeOf env.prober).2.1
    checked_at := env.now
    error_message := (probeOf env.prober).2.2 }

/-- The three store failures that escape every `try` inside
`checkMonitor` and therefore reach the sweep-level `catch`. -/
def abortingStoreFailure (env : CheckEnv) : Prop :=
  env.updateStatusFails = true ∨ env.postDownUpdateFails = true ∨ env.logCheckFails = true

instance (env : CheckEnv) : Decidable (abortingStoreFailure env) := by
  unfold abortingStoreFailure
  infer_instance

/-- Modelled from the spec: render one unit count with its unit word,
pluralized when the count is not exactly 1. -/
def renderUnit (n : Nat) (unit : String) : String :=
  toString n ++ " " ++ unit ++ (if n ≠ 1 then "s" else "")

/-- Modelled from the spec: the claimed rendering — the largest two
non-zero units among days, hours, minutes, seconds, each pluralized.
Used only to compare against `formatDuration`. -/
def renderLargestTwoNonZero (ms : Nat) : String :=
  let parts := [(ms / 86400000, "day"), (ms / 3600000 % 24, "hour"),
    (ms / 60000 % 60, "minute"), (ms / 1000 % 60, "second")]
  match (parts.filter fun p => decide (0 < p.1)).take 2 with
  | [] => renderUnit 0 "second"
  | ps => String.intercalate " " (ps.map fun p => renderUnit p.1 p.2)

/-- The rendering the code actually implements, stated spec-style: the
largest non-zero unit together with the immediately smaller unit (shown
even when its count is zero); below one minute, seconds alone. -/
def renderAdjacentUnits (ms : Nat) : String :=
  let d := ms / 86400000
  let h := ms / 3600000
  let mi := ms / 60000
  let s := ms / 1000
  if 0 < d then renderUnit d "day" ++ " " ++ renderUnit (h % 24) "hour"
  else if 0 < h then renderUnit h "hour" ++ " " ++ renderUnit (mi % 60) "minute"
  else if 0 < mi then renderUnit mi "minute" ++ " " ++ renderUnit (s % 60) "second"
  else renderUnit s "second"

/-- The id/enabled-flag projection of the monitors table; the engine
never changes it. -/
def monitorKey (db : DB) : List (Nat × Bool) :=
  db.monitors.map fun x => (x.id, x.notifications_enabled)

/-! Concrete fixtures used by counterexamples and witnesses. -/

/-- An environment where every external call succeeds. -/
def cleanEnv : CheckEnv :=
  { prober := .resolves (.resp true 200) 50
    now := 1000000
    updateStatusFails := false
    logCheckFails := false
    postDownUpdateFails := false
    downDelegate := .returns true none
    downLogFails := false
    downUpdateFails := false
    upQueryFails := false
    upDelegate := .returns true none
    upLogFails := false }

/-- A monitor currently `up`, notifications enabled. -/
def mon1 : Monitor :=
  { id := 1, user_email := "a@example.com", url := "example.com", name := "One"
    status := Status.up, last_checked := none, response_time := none
    notifications_enabled := true, last_notification_sent := none }

/-- A second monitor, still `pending`. -/
def mon2 : Monitor :=
  { mon1 with
    id := 2, user_email := "b@example.com", name := "Two"
    status := Status.pending }

/-- A store holding the two monitors and nothing else. -/
def db0 : DB :=
  { monitors := [mon1, mon2], history := [], notification_log := [], dispatches := [] }

/-- Environment whose history append rejects with a store error. -/
def envLogFails : CheckEnv := { cleanEnv with logCheckFails := true }

/-- Environment where the probe fails and the down-notification
delegate call rejects. -/
def envDelegateThrows : CheckEnv :=
  { cleanEnv with
    downDelegate := .throws "boom"
    prober := .resolves (.resp false 500) 50 }

/-- Environment where the probe fails and the down-notification
delegate resolves with a failure result. -/
def envSendFails : CheckEnv :=
  { cleanEnv with
    downDelegate := .returns false (some "smtp error")
    prober := .resolves (.resp false 500) 50 }

/-- Three history rows for monitor 1: up, then two downs. -/
def hist3 : List StatusCheckRecord :=
  [ { monitor_id := 1, status := Status.up, response_time := some 10
      checked_at := 999000, error_message := none }
  , { monitor_id := 1, status := Status.down, response_time := some 10
      checked_at := 999100, error_message := some "HTTP 500" }
  , { monitor_id := 1, status := Status.down, response_time := some 10
      checked_at := 999200, error_message := some "HTTP 500" } ]

/-- Monitor 1 as it looks during an outage. -/
def monDown : Monitor := { mon1 with status := Status.down }

/-- Monitor 1 with notifications disabled, not yet checked. -/
def monQuiet : Monitor :=
  { mon1 with status := Status.pending, notifications_enabled := false }

/-- A store holding the disabled monitor next to the pending one. -/
def dbQuiet : DB :=
  { monitors := [monQuiet, mon2], history := [], notification_log := [], dispatches := [] }

/-- Store during the outage: monitor 1 is `down` with `hist3` behind it. -/
def dbDown : DB := { db0 with monitors := [monDown, mon2], history := hist3 }

/-! ## Theorems -/

/-- Sequencing after a normal completion runs the continuation. -/
@[simp] theorem andThen_none (db : DB) (f : DB → Outcome) :
    andThen { db := db, err := none } f = f db := rfl

/-- Sequencing after a thrown error skips the continuation. -/
@[simp] theorem andThen_some (db : DB) (e : String) (f : DB → Outcome) :
    andThen { db := db, err := some e } f = { db := db, err := some e } := rfl

/-- A swallowed outcome keeps the state and clears the error. -/
@[simp] theorem swallow_spec (o : Outcome) : swallow o = { db := o.db, err := none } := rfl

/-- The status overwrite touches neither history, notification log nor
dispatch trace. -/
@[simp] theorem updateMonitorStatus_history (i : Nat) (st : Status) (rt : Option Nat)
    (now : Nat) (f : Bool) (db : DB) :
    (updateMonitorStatus i st rt now f db).db.history = db.history := by
  unfold updateMonitorStatus; split <;> rfl

@[simp] theorem updateMonitorStatus_log (i : Nat) (st : Status) (rt : Option Nat)
    (now : Nat) (f : Bool) (db : DB) :
    (updateMonitorStatus i st rt now f db).db.notification_log = db.notification_log := by
  unfold updateMonitorStatus; split <;> rfl

@[simp] theorem updateMonitorStatus_dispatches (i : Nat) (st : Status) (rt : Option Nat)
    (now : Nat) (f : Bool) (db : DB) :
    (updateMonitorStatus i st rt now f db).db.dispatches = db.dispatches := by
  unfold updateMonitorStatus; split <;> rfl

/-- The timestamp update touches neither history, notification log nor
dispatch trace. -/
@[simp] theorem setLastNotificationSent_history (i now : Nat) (f : Bool) (db : DB) :
    (setLastNotificationSent i now f db).db.history = db.history := by
  unfold setLastNotificationSent; split <;> rfl

@[simp] theorem setLastNotificationSent_log (i now : Nat) (f : Bool) (db : DB) :
    (setLastNotificationSent i now f db).db.notification_log = db.notification_log := by
  unfold setLastNotificationSent; split <;> rfl

@[simp] theorem setLastNotificationSent_dispatches (i now : Nat) (f : Bool) (db : DB) :
    (setLastNotificationSent i now f db).db.dispatches = db.dispatches := by
  unfold setLastNotificationSent; split <;> rfl

/-- The history append touches neither monitors, notification log nor
dispatch trace. -/
@[simp] theorem logStatusCheck_monitors (i : Nat) (st : Status) (rt : Option Nat)
    (em : Option String) (now : Nat) (f : Bool) (db : DB) :
    (logStatusCheck i st rt em now f db).db.monitors = db.monitors := by
  unfold logStatusCheck; split <;> rfl

@[simp] theorem logStatusCheck_log (i : Nat) (st : Status) (rt : Option Nat)
    (em : Option String) (now : Nat) (f : Bool) (db : DB) :
    (logStatusCheck i st rt em now f db).db.notification_log = db.notification_log := by
  unfold logStatusCheck; split <;> rfl

@[simp] theorem logStatusCheck_dispatches (i : Nat) (st : Status) (rt : Option Nat)
    (em : Option String) (now : Nat) (f : Bool) (db : DB) :
    (logStatusCheck i st rt em now f db).db.dispatches = db.dispatches := by
  unfold logStatusCheck; split <;> rfl

/-- The notification-log append touches neither monitors, history nor
dispatch trace. -/
@[simp] theorem logNotification_monitors (i : Nat) (ue ty : String) (su : Bool)
    (em : Option String) (f : Bool) (db : DB) :
    (logNotification i ue ty su em f db).db.monitors = db.monitors := by
  unfold logNotification; split <;> rfl

@[simp] theorem logNotification_history (i : Nat) (ue ty : String) (su : Bool)
    (em : Option String) (f : Bool) (db : DB) :
    (logNotification i ue ty su em f db).db.history = db.history := by
  unfold logNotification; split <;> rfl

@[simp] theorem logNotification_dispatches (i : Nat) (ue ty : String) (su : Bool)
    (em : Option String) (f : Bool) (db : DB) :
    (logNotification i ue ty su em f db).db.dispatches = db.dispatches := by
  unfold logNotification; split <;> rfl

/-- The store primitives with a healthy store complete normally. -/
@[simp] theorem updateMonitorStatus_ok_err (i : Nat) (st : Status) (rt : Option Nat)
    (now : Nat) (db : DB) : (updateMonitorStatus i st rt now false db).err = none := rfl

@[simp] theorem setLastNotificationSent_ok_err (i now : Nat) (db : DB) :
    (setLastNotificationSent i now false db).err = none := rfl

@[simp] theorem logStatusCheck_ok_err (i : Nat) (st : Status) (rt : Option Nat)
    (em : Option String) (now : Nat) (db : DB) :
    (logStatusCheck i st rt em now false db).err = none := rfl

@[simp] theorem logNotification_ok_err (i : Nat) (ue ty : String) (su : Bool)
    (em : Option String) (db : DB) :
    (logNotification i ue ty su em false db).err = none := rfl

/-- C2: for every Monitor and newly observed status, a notification is
dispatched only on `up→down` and `down→up`: in every other case —
first observation from `pending`, or a repeated status, whatever the
notifications-enabled flag — `handleStatusChange` leaves the store
(including the notification log and the dispatch trace) untouched and
returns normally. -/
theorem handleStatusChange_only_on_transitions
    (m : Monitor) (ns : Status) (env : CheckEnv) (db : DB)
    (h : ¬((m.status = Status.up ∧ ns = Status.down) ∨
           (m.status = Status.down ∧ ns = Status.up))) :
    handleStatusChange m ns env db = { db := db, err := none } := by
  unfold handleStatusChange
  cases hm : m.status <;> cases hn : ns <;> simp_all

/-- Witness for C2: a first observation `pending → up` of the pending
monitor emits nothing. -/
theorem handleStatusChange_only_on_transitions_witness :
    handleStatusChange mon2 Status.up cleanEnv db0 = { db := db0, err := none } :=
  handleStatusChange_only_on_transitions mon2 Status.up cleanEnv db0 (by decide)

/-- C4, counterexample: at 86700000 ms (1 day, 5 minutes) the code
renders "1 day 0 hours" — a zero-count unit appears and the non-zero
minutes are dropped — while the claimed "largest two applicable
non-zero units" rendering is "1 day 5 minutes". -/
theorem formatDuration_not_two_nonzero_units :
    formatDuration 86700000 = "1 day 0 hours" ∧
    renderLargestTwoNonZero 86700000 = "1 day 5 minutes" ∧
    formatDuration 86700000 ≠ renderLargestTwoNonZero 86700000 := by
  refine ⟨by decide, by decide, by decide⟩

/-- C4, amended: `formatDuration` renders the largest non-zero unit
together with the immediately smaller unit (even when that count is
zero) and seconds alone below one minute, pluralizing each rendered
unit word when its count is not 1; the claim's three examples hold. -/
theorem formatDuration_adjacent_units :
    (∀ ms : Nat, formatDuration ms = renderAdjacentUnits ms) ∧
    formatDuration 7300000 = "2 hours 1 minute" ∧
    formatDuration 45000 = "45 seconds" ∧
    formatDuration 90000000 = "1 day 1 hour" := by
  refine ⟨fun ms => ?_, by decide, by decide, by decide⟩
  unfold formatDuration renderAdjacentUnits renderUnit
  simp only [Nat.div_div_eq_div_mul]
  norm_num
  rw [show (" day" : String) = " " ++ "day" from rfl,
    show (" hour" : String) = " " ++ "hour" from rfl,
    show (" minute" : String) = " " ++ "minute" from rfl,
    show (" second" : String) = " " ++ "second" from rfl]
  simp [String.append_assoc]

/-- C7, counterexample: a non-abort network failure whose underlying
message is itself the string "Timeout" yields `errorDetail = "Timeout"`,
so a non-timeout failure can carry the timeout marker, contrary to the
claim's "never the Timeout marker". -/
theorem checkUrl_marker_collision :
    (checkUrl (FetchOutcome.err "FetchError" "Timeout") 5).error = some "Timeout" ∧
    "FetchError" ≠ "AbortError" := by
  refine ⟨by decide, by decide⟩

/-- C7, amended: `checkUrl` is total in the fetch outcome (never
throws past the prober boundary); every network error (every rejected
fetch, timeout included) classifies as `down`, every non-ok final
response classifies as `down` with `errorDetail` the "HTTP code" text,
and `down` always comes with `errorDetail` populated; an abort
(timeout) yields exactly "Timeout"; any other rejection carries the
underlying error message verbatim — which coincides with the marker
only when that message is itself "Timeout"; `up` is classified exactly
on ok responses. -/
theorem checkUrl_classification (o : FetchOutcome) (elapsed : Nat) :
    ((checkUrl o elapsed).status = Status.up ∨ (checkUrl o elapsed).status = Status.down) ∧
    ((checkUrl o elapsed).status = Status.down → ∃ e, (checkUrl o elapsed).error = some e) ∧
    (∀ name msg, o = FetchOutcome.err name msg →
      (checkUrl o elapsed).status = Status.down) ∧
    (∀ code, o = FetchOutcome.resp false code →
      (checkUrl o elapsed).status = Status.down ∧
      (checkUrl o elapsed).error = some ("HTTP " ++ toString code)) ∧
    (∀ msg, o = FetchOutcome.err "AbortError" msg →
      (checkUrl o elapsed).error = some "Timeout") ∧
    (∀ name msg, o = FetchOutcome.err name msg → name ≠ "AbortError" →
      (checkUrl o elapsed).error = some msg) ∧
    (∀ ok code, o = FetchOutcome.resp ok code →
      ((checkUrl o elapsed).status = Status.up ↔ ok = true)) := by
  rcases o with ⟨ok, code⟩ | ⟨name, msg⟩
  · cases ok <;> simp [checkUrl]
  · by_cases h : name = "AbortError" <;> simp [checkUrl, h]

/-- Witness for C7 (amended): a connection-refusal failure classifies
`down` and keeps its own message. -/
theorem checkUrl_classification_witness :
    (checkUrl (FetchOutcome.err "ECONNREFUSED" "connection refused") 5).status =
      Status.down ∧
    (checkUrl (FetchOutcome.err "ECONNREFUSED" "connection refused") 5).error =
      some "connection refused" :=
  ⟨(checkUrl_classification (FetchOutcome.err "ECONNREFUSED" "connection refused") 5).2.2.1
      "ECONNREFUSED" "connection refused" rfl,
   (checkUrl_classification (FetchOutcome.err "ECONNREFUSED" "connection refused") 5).2.2.2.2.2.1
      "ECONNREFUSED" "connection refused" rfl (by decide)⟩

/-- C3, counterexample: when the notifier delegate call throws, the
`catch` in `sendDownNotification` swallows the error and no
NotificationLogEntry is written at all, although a notification was
attempted (the dispatch trace shows the delegate call). -/
theorem thrown_delegate_logs_nothing :
    (sendDownNotification mon1 envDelegateThrows db0).err = none ∧
    (sendDownNotification mon1 envDelegateThrows db0).db.dispatches =
      [Dispatch.down 1 "a@example.com"] ∧
    (sendDownNotification mon1 envDelegateThrows db0).db.notification_log = [] := by
  refine ⟨by decide, by decide, by decide⟩

/-- C3, amended: the notification senders never raise past their
boundary; when the delegate returns a result (success or failure) and
the log insert succeeds, exactly one NotificationLogEntry with that
success flag is appended; when the delegate throws, the error is
swallowed and no entry is written. -/
theorem notification_attempt_logging (m : Monitor) (env : CheckEnv) (db : DB) :
    (sendDownNotification m env db).err = none ∧
    (sendUpNotification m env db).err = none ∧
    (∀ s e, env.downDelegate = DelegateOutcome.returns s e → env.downLogFails = false →
      (sendDownNotification m env db).db.notification_log = db.notification_log ++
        [{ monitor_id := m.id, user_email := m.user_email, notification_type := "down"
           success := s, error_message := e }]) ∧
    (∀ msg, env.downDelegate = DelegateOutcome.throws msg →
      (sendDownNotification m env db).db.notification_log = db.notification_log ∧
      (sendDownNotification m env db).db.dispatches =
        db.dispatches ++ [Dispatch.down m.id m.user_email]) ∧
    (∀ s e, env.upQueryFails = false → env.upDelegate = DelegateOutcome.returns s e →
      env.upLogFails = false →
      (sendUpNotification m env db).db.notification_log = db.notification_log ++
        [{ monitor_id := m.id, user_email := m.user_email, notification_type := "up"
           success := s, error_message := e }]) ∧
    (∀ msg, env.upQueryFails = false → env.upDelegate = DelegateOutcome.throws msg →
      (sendUpNotification m env db).db.notification_log = db.notification_log) := by
  refine ⟨rfl, rfl, ?_, ?_, ?_, ?_⟩
  · intro s e hd hl
    simp [sendDownNotification, sendDownBody, hd, hl, logNotification, andThen]
    split <;> simp
  · intro msg hd
    simp [sendDownNotification, sendDownBody, hd]
  · intro s e hq hd hl
    simp [sendUpNotification, sendUpBody, hq, hd, hl, logNotification, andThen]
  · intro msg hq hd
    simp [sendUpNotification, sendUpBody, hq, hd]

/-- Witness for C3 (amended): a delegate failure result still produces
a log entry with `success = false`. -/
theorem notification_attempt_logging_witness :
    (sendDownNotification mon1 envSendFails db0).db.notification_log =
      db0.notification_log ++
        [{ monitor_id := 1, user_email := "a@example.com", notification_type := "down"
           success := false, error_message := some "smtp error" }] :=
  (notification_attempt_logging mon1 envSendFails db0).2.2.1 false (some "smtp error")
    (by decide) (by decide)

/-- C9, counterexample: on an `up→down` transition the delegate reports
failure (`success = false`), yet `handleStatusChange` still sets the
monitor's `last_notification_sent` to the current time — the update at
lines 224-228 is unconditional, contrary to the claim that the
timestamp is updated exactly on success. -/
theorem timestamp_updated_on_failed_send :
    mon1.last_notification_sent = none ∧
    envSendFails.downDelegate = DelegateOutcome.returns false (some "smtp error") ∧
    ((handleStatusChange mon1 Status.down envSendFails db0).db.monitors.map
      Monitor.last_notification_sent) = [some 1000000, none] := by
  refine ⟨by decide, by decide, by decide⟩

/-- C9, amended: on every `up→down` transition with notifications
enabled, provided the unconditional timestamp update statement itself
does not fail at the store level, the monitor's `last_notification_sent`
is set to the current time whether the down notification send
succeeded, failed or threw. -/
theorem timestamp_always_updated_on_down (m : Monitor) (env : CheckEnv) (db : DB)
    (hstatus : m.status = Status.up) (hen : m.notifications_enabled = true)
    (hpost : env.postDownUpdateFails = false) :
    (handleStatusChange m Status.down env db).err = none ∧
    (handleStatusChange m Status.down env db).db.monitors =
      db.monitors.map fun x =>
        if x.id = m.id then { x with last_notification_sent := some env.now } else x := by
  have hidem : ∀ l : List Monitor,
      ((l.map fun x =>
          if x.id = m.id then { x with last_notification_sent := some env.now } else x).map
        fun x => if x.id = m.id then { x with last_notification_sent := some env.now } else x) =
      l.map fun x =>
        if x.id = m.id then { x with last_notification_sent := some env.now } else x := by
    intro l
    rw [List.map_map]
    apply List.map_congr_left
    intro x _
    by_cases h : x.id = m.id <;> simp [h]
  unfold handleStatusChange
  rw [hstatus]
  simp only [hen]
  rcases hd : env.downDelegate with ⟨s, e⟩ | msg
  · cases s <;> cases s0 : env.downLogFails <;> cases s1 : env.downUpdateFails <;>
      simp [sendDownNotification, sendDownBody, hd, hpost, logNotification,
        setLastNotificationSent, andThen, s0, s1, hidem]
  · simp [sendDownNotification, sendDownBody, hd, hpost, setLastNotificationSent, andThen]

/-- Witness for C9 (amended): the failed-send scenario, instantiated. -/
theorem timestamp_always_updated_on_down_witness :
    (handleStatusChange mon1 Status.down envSendFails db0).err = none ∧
    (handleStatusChange mon1 Status.down envSendFails db0).db.monitors =
      db0.monitors.map fun x =>
        if x.id = mon1.id then { x with last_notification_sent := some envSendFails.now }
        else x :=
  timestamp_always_updated_on_down mon1 envSendFails db0 (by decide) (by decide) (by decide)

/-- C8, counterexample: with 3 in-window checks of which 1 is up, the
code stores `(1/3*100).toFixed(2)`, i.e. 33.33, which is not equal to
`upChecks / totalChecks * 100` = 33.333…; the claimed exact equality
fails. -/
theorem uptime_percentage_is_rounded :
    getMonitorStatsUptime 1 24 1000000 hist3 = 3333 / 100 ∧
    getMonitorStatsUptime 1 24 1000000 hist3 ≠ (1 : ℚ) / 3 * 100 := by
  have h1 : (windowRecords 1 24 1000000 hist3).length = 3 := by decide
  have h2 : ((windowRecords 1 24 1000000 hist3).filter fun r =>
      decide (r.status = Status.up)).length = 1 := by decide
  have hv : getMonitorStatsUptime 1 24 1000000 hist3 = 3333 / 100 := by
    unfold getMonitorStatsUptime uptimePercentageOf toFixed2
    rw [h1, h2]
    norm_num [round_eq]
  refine ⟨hv, by rw [hv]; norm_num⟩

/-- C8, amended: `uptime_percentage` is 0 when no checks lie in the
trailing window (no division by zero is performed), and otherwise is
`upChecks / totalChecks * 100` rounded to two decimal places
(`toFixed(2)`): within 1/200 of the exact ratio and always between 0
and 100. -/
theorem uptime_percentage_bounds (monitorId hours now : Nat) (hist : List StatusCheckRecord) :
    (getMonitorStatsUptime monitorId hours now hist = 0 ∨
      0 < (windowRecords monitorId hours now hist).length) ∧
    (0 < (windowRecords monitorId hours now hist).length →
      |getMonitorStatsUptime monitorId hours now hist -
        (((windowRecords monitorId hours now hist).filter fun r =>
            decide (r.status = Status.up)).length : ℚ) /
          ((windowRecords monitorId hours now hist).length : ℚ) * 100| ≤ 1 / 200 ∧
      0 ≤ getMonitorStatsUptime monitorId hours now hist ∧
      getMonitorStatsUptime monitorId hours now hist ≤ 100) := by
  set recs := windowRecords monitorId hours now hist with hrecs
  constructor
  · by_cases h : 0 < recs.length
    · exact Or.inr h
    · left
      unfold getMonitorStatsUptime uptimePercentageOf
      rw [← hrecs]
      simp [h]
  · intro h
    set up := (recs.filter fun r => decide (r.status = Status.up)).length with hup
    set q : ℚ := (up : ℚ) / (recs.length : ℚ) * 100 with hq
    have hval : getMonitorStatsUptime monitorId hours now hist = toFixed2 q := by
      unfold getMonitorStatsUptime uptimePercentageOf
      rw [← hrecs]
      simp [h, hq, hup]
    have hq0 : 0 ≤ q := by
      rw [hq]
      positivity
    have hq100 : q ≤ 100 := by
      rw [hq]
      have hle : (up : ℚ) / (recs.length : ℚ) ≤ 1 := by
        rw [div_le_one (by exact_mod_cast h)]
        exact_mod_cast List.length_filter_le _ _
      calc (up : ℚ) / (recs.length : ℚ) * 100 ≤ 1 * 100 := by
            apply mul_le_mul_of_nonneg_right hle
            norm_num
        _ = 100 := by norm_num
    refine ⟨?_, ?_, ?_⟩
    · rw [hval]
      have key : |(round (q * 100) : ℚ) - q * 100| ≤ 1 / 2 := by
        have h2 := abs_sub_round (q * 100)
        rwa [abs_sub_comm] at h2
      have expand : toFixed2 q - q = ((round (q * 100) : ℚ) - q * 100) / 100 := by
        unfold toFixed2
        ring
      rw [expand, abs_div, show |(100 : ℚ)| = 100 by norm_num]
      calc |(round (q * 100) : ℚ) - q * 100| / 100 ≤ (1 / 2) / 100 := by gcongr
        _ = 1 / 200 := by norm_num
    · rw [hval]
      unfold toFixed2
      have hnn : (0 : ℤ) ≤ round (q * 100) := by
        rw [round_eq]
        apply Int.floor_nonneg.mpr
        linarith
      apply div_nonneg _ (by norm_num)
      exact_mod_cast hnn
    · rw [hval]
      unfold toFixed2
      have hr : round (q * 100) ≤ 10000 := by
        rw [round_eq]
        apply Int.floor_le_iff.mpr
        push_cast
        linarith
      rw [div_le_iff₀ (by norm_num)]
      calc ((round (q * 100) : ℤ) : ℚ) ≤ (10000 : ℚ) := by exact_mod_cast hr
        _ = 100 * 100 := by norm_num

/-- Witness for C8 (amended): three in-window checks, one up. -/
theorem uptime_percentage_bounds_witness :
    0 < (windowRecords 1 24 1000000 hist3).length ∧
    (|getMonitorStatsUptime 1 24 1000000 hist3 -
        (((windowRecords 1 24 1000000 hist3).filter fun r =>
            decide (r.status = Status.up)).length : ℚ) /
          ((windowRecords 1 24 1000000 hist3).length : ℚ) * 100| ≤ 1 / 200 ∧
      0 ≤ getMonitorStatsUptime 1 24 1000000 hist3 ∧
      getMonitorStatsUptime 1 24 1000000 hist3 ≤ 100) :=
  ⟨by decide, (uptime_percentage_bounds 1 24 1000000 hist3).2 (by decide)⟩

/-- Sequencing after a completed step runs the continuation on its
state. -/
theorem andThen_of_err_none (o : Outcome) (f : DB → Outcome) (h : o.err = none) :
    andThen o f = f o.db := by
  unfold andThen
  rw [h]

/-- The down-notification body never touches history. -/
theorem sendDownBody_history (m : Monitor) (env : CheckEnv) (db : DB) :
    (sendDownBody m env db).db.history = db.history := by
  unfold sendDownBody
  cases hd : env.downDelegate <;> cases hf : env.downLogFails <;>
    simp [andThen, logNotification, *]
  all_goals split <;> simp

/-- The up-notification body never touches history. -/
theorem sendUpBody_history (m : Monitor) (env : CheckEnv) (db : DB) :
    (sendUpBody m env db).db.history = db.history := by
  unfold sendUpBody
  cases hq : env.upQueryFails <;> cases hd : env.upDelegate <;> simp [*]

/-- Transition handling never touches history: within one check, the
history append is not performed before or during notification work. -/
theorem handleStatusChange_history (m : Monitor) (ns : Status) (env : CheckEnv) (db : DB) :
    (handleStatusChange m ns env db).db.history = db.history := by
  unfold handleStatusChange
  dsimp only
  split
  · split
    · rw [andThen_of_err_none _ _ (by simp [sendDownNotification])]
      simp [sendDownNotification, sendDownBody_history]
    · split
      · simp [sendUpNotification, sendUpBody_history]
      · rfl
  · rfl

/-- Transition handling only throws via the unconditional
`last_notification_sent` update of the down branch. -/
theorem handleStatusChange_err_none (m : Monitor) (ns : Status) (env : CheckEnv) (db : DB)
    (h : env.postDownUpdateFails = false) :
    (handleStatusChange m ns env db).err = none := by
  unfold handleStatusChange
  dsimp only
  split
  · split
    · rw [andThen_of_err_none _ _ (by simp [sendDownNotification])]
      simp [setLastNotificationSent, h]
    · split
      · simp [sendUpNotification]
      · rfl
  · rfl

/-- With the three sweep-aborting store statements healthy, one check
completes normally and appends exactly its own history row. -/
theorem checkMonitor_clean (m : Monitor) (env : CheckEnv) (db : DB)
    (hu : env.updateStatusFails = false) (hp : env.postDownUpdateFails = false)
    (hl : env.logCheckFails = false) :
    (checkMonitor m env db).err = none ∧
    (checkMonitor m env db).db.history = db.history ++ [checkRecordOf m env] := by
  unfold checkMonitor
  dsimp only
  rw [andThen_of_err_none _ _ (by simp [updateMonitorStatus, hu])]
  rw [andThen_of_err_none _ _ (handleStatusChange_err_none _ _ _ _ hp)]
  constructor
  · simp [logStatusCheck, hl]
  · simp [logStatusCheck, hl, handleStatusChange_history, checkRecordOf]

/-- The sweep loop under a healthy store checks every monitor in order. -/
theorem sweepLoop_clean (pairs : List (Monitor × CheckEnv)) (db : DB)
    (h : ∀ p ∈ pairs, p.2.updateStatusFails = false ∧ p.2.postDownUpdateFails = false ∧
      p.2.logCheckFails = false) :
    (sweepLoop pairs db).err = none ∧
    (sweepLoop pairs db).db.history =
      db.history ++ pairs.map fun p => checkRecordOf p.1 p.2 := by
  induction pairs generalizing db with
  | nil => simp [sweepLoop]
  | cons hd tl ih =>
      obtain ⟨h1, h2, h3⟩ := h hd (List.mem_cons_self hd tl)
      have hc := checkMonitor_clean hd.1 hd.2 db h1 h2 h3
      unfold sweepLoop
      rw [andThen_of_err_none _ _ hc.1]
      obtain ⟨ih1, ih2⟩ := ih (checkMonitor hd.1 hd.2 db).db
        (fun p hp => h p (List.mem_cons_of_mem hd hp))
      refine ⟨ih1, ?_⟩
      rw [ih2, hc.2]
      simp

/-- C1, counterexample: a store error while appending monitor 1's
history row escapes `checkMonitor` and is caught only by the
sweep-level `catch`: monitor 2 is never checked (no history row at all
is produced), although the same sweep with a healthy store checks both
monitors. The claimed per-Monitor isolation of store errors fails. -/
theorem store_error_aborts_sweep :
    (checkAllMonitors [(mon1, envLogFails), (mon2, cleanEnv)] db0).err = none ∧
    (checkAllMonitors [(mon1, envLogFails), (mon2, cleanEnv)] db0).db.history = [] ∧
    (checkAllMonitors [(mon1, cleanEnv), (mon2, cleanEnv)] db0).db.history.map
      StatusCheckRecord.monitor_id = [1, 2] := by
  refine ⟨by decide, by decide, by decide⟩

/-- C1, amended: the sweep itself never throws; prober exceptions and
notifier-delegate failures are caught per-Monitor, so whenever the
three sweep-aborting store statements (status overwrite, post-down
timestamp update, history append) succeed for every Monitor, every
Monitor of the sweep is checked and contributes exactly one history
row in order — regardless of probe outcomes, prober rejections, or
delegate errors. A store error in one of those three statements aborts
the remainder of the sweep at the sweep-level catch. -/
theorem sweep_error_handling (pairs : List (Monitor × CheckEnv)) (db : DB) :
    (checkAllMonitors pairs db).err = none ∧
    ((∀ p ∈ pairs, p.2.updateStatusFails = false ∧ p.2.postDownUpdateFails = false ∧
        p.2.logCheckFails = false) →
      (checkAllMonitors pairs db).db.history =
        db.history ++ pairs.map fun p => checkRecordOf p.1 p.2) := by
  refine ⟨rfl, fun h => ?_⟩
  have hs := sweepLoop_clean pairs db h
  show (swallow (sweepLoop pairs db)).db.history = _
  rw [swallow_spec]
  exact hs.2

/-- Witness for C1 (amended): the clean two-monitor sweep, where the
first monitor's prober rejects, still checks both monitors. -/
theorem sweep_error_handling_witness :
    (checkAllMonitors [(mon1, { cleanEnv with prober := ProberOutcome.rejects "socket hang up" }),
        (mon2, cleanEnv)] db0).db.history =
      db0.history ++
        [(mon1, { cleanEnv with prober := ProberOutcome.rejects "socket hang up" }),
          (mon2, cleanEnv)].map fun p => checkRecordOf p.1 p.2 :=
  (sweep_error_handling
      [(mon1, { cleanEnv with prober := ProberOutcome.rejects "socket hang up" }),
        (mon2, cleanEnv)] db0).2 (by decide)

/-- On a `down→up` observation with notifications enabled, transition
handling is exactly the up-notification sender. -/
theorem handleStatusChange_recovery (m : Monitor) (env : CheckEnv) (db : DB)
    (hstatus : m.status = Status.down) (hen : m.notifications_enabled = true) :
    handleStatusChange m Status.up env db = sendUpNotification m env db := by
  unfold handleStatusChange
  dsimp only
  rw [hstatus]
  simp [hen]

/-- C10: within one check the history append is the final write — it
happens after the status overwrite and after all transition/notification
handling — so on a `down→up` transition the outage-duration query runs
against the pre-check history (`db.history`), which does not yet hold
the new up record; that record is appended afterwards, at the end. -/
theorem history_append_is_last_write (m : Monitor) (env : CheckEnv) (db : DB)
    (hstatus : m.status = Status.down)
    (hprobe : (probeOf env.prober).1 = Status.up)
    (hen : m.notifications_enabled = true)
    (hq : env.upQueryFails = false)
    (hu : env.updateStatusFails = false)
    (hl : env.logCheckFails = false) :
    (checkMonitor m env db).err = none ∧
    (checkMonitor m env db).db.dispatches =
      db.dispatches ++ [Dispatch.up m.id m.user_email (downDurationOf m env.now db.history)] ∧
    (checkMonitor m env db).db.history = db.history ++ [checkRecordOf m env] := by
  unfold checkMonitor
  dsimp only
  rw [andThen_of_err_none _ _ (by simp [updateMonitorStatus, hu])]
  rw [hprobe, handleStatusChange_recovery m env _ hstatus hen]
  rw [andThen_of_err_none _ _ (by simp [sendUpNotification])]
  refine ⟨by simp [logStatusCheck, hl], ?_, ?_⟩
  · simp only [sendUpNotification, swallow_spec]
    unfold sendUpBody
    rw [hq]
    dsimp only
    rcases hd : env.upDelegate with ⟨s, e⟩ | msg <;>
      cases hlog : env.upLogFails <;>
        simp [logStatusCheck, hl, logNotification, updateMonitorStatus, hu]
  · simp only [sendUpNotification, swallow_spec]
    unfold sendUpBody
    rw [hq]
    dsimp only
    rcases hd : env.upDelegate with ⟨s, e⟩ | msg <;>
      cases hlog : env.upLogFails <;>
        simp [logStatusCheck, hl, logNotification, updateMonitorStatus, hu, checkRecordOf, hprobe]

/-- Witness for C10: recovery of the down monitor over the `hist3`
history. -/
theorem history_append_is_last_write_witness :
    (checkMonitor monDown cleanEnv dbDown).err = none ∧
    (checkMonitor monDown cleanEnv dbDown).db.dispatches =
      dbDown.dispatches ++ [Dispatch.up monDown.id monDown.user_email
        (downDurationOf monDown cleanEnv.now dbDown.history)] ∧
    (checkMonitor monDown cleanEnv dbDown).db.history =
      dbDown.history ++ [checkRecordOf monDown cleanEnv] :=
  history_append_is_last_write monDown cleanEnv dbDown (by decide) (by decide) (by decide)
    (by decide) (by decide) (by decide)

/-- The fold implementing `ORDER BY checked_at DESC LIMIT 1` returns
`none` exactly on an empty row set, and otherwise an element of the
row set whose `checked_at` is maximal. -/
theorem foldl_pickLater_spec (l : List StatusCheckRecord) :
    ∀ acc : Option StatusCheckRecord,
      (l.foldl pickLater acc = none → l = [] ∧ acc = none) ∧
      (∀ r, l.foldl pickLater acc = some r →
        (r ∈ l ∨ acc = some r) ∧ (∀ x ∈ l, x.checked_at ≤ r.checked_at) ∧
        (∀ b, acc = some b → b.checked_at ≤ r.checked_at)) := by
  induction l with
  | nil =>
      intro acc
      refine ⟨fun h => ⟨rfl, h⟩, ?_⟩
      intro r h
      rw [List.foldl_nil] at h
      refine ⟨Or.inr h, by simp, ?_⟩
      intro b hb
      rw [h] at hb
      injection hb with hbe
      rw [hbe]
  | cons hd tl ih =>
      intro acc
      have step : ∃ c, pickLater acc hd = some c ∧ hd.checked_at ≤ c.checked_at ∧
          (c = hd ∨ acc = some c) ∧ (∀ b, acc = some b → b.checked_at ≤ c.checked_at) := by
        rcases acc with _ | b
        · exact ⟨hd, rfl, le_refl _, Or.inl rfl, by simp⟩
        · unfold pickLater
          by_cases hle : b.checked_at ≤ hd.checked_at
          · exact ⟨hd, by simp [hle], le_refl _, Or.inl rfl, by intro b0 hb0; simp_all⟩
          · exact ⟨b, by simp [hle], le_of_not_le hle, Or.inr rfl, by intro b0 hb0; simp_all⟩
      obtain ⟨c, hc, hhd, hcsrc, haccle⟩ := step
      constructor
      · intro hnone
        rw [List.foldl_cons, hc] at hnone
        obtain ⟨-, habs⟩ := (ih (some c)).1 hnone
        exact absurd habs (by simp)
      · intro r hr
        rw [List.foldl_cons, hc] at hr
        obtain ⟨hmem, hall, hacc⟩ := (ih (some c)).2 r hr
        have hcr : c.checked_at ≤ r.checked_at := hacc c rfl
        refine ⟨?_, ?_, ?_⟩
        · rcases hmem with h | h
          · exact Or.inl (List.mem_cons_of_mem hd h)
          · rcases hcsrc with h2 | h2
            · left
              have hrc : r = hd := by
                rw [← h2]
                exact (Option.some.inj h).symm
              rw [hrc]
              exact List.mem_cons_self hd tl
            · right
              rw [h2, h]
        · intro x hx
          rcases List.mem_cons.mp hx with h | h
          · exact h ▸ le_trans hhd hcr
          · exact hall x h
        · intro b hb
          exact le_trans (haccle b hb) hcr

/-- C5: when the history query succeeds, the up notification is
dispatched with a duration computed exactly as claimed: from a most
recent `down` StatusCheckRecord of the Monitor (an in-history row of
maximal timestamp) as `now` minus its timestamp; with no such record,
from `now` minus `last_notification_sent` when present; otherwise with
no duration in the payload. -/
theorem up_notification_duration (m : Monitor) (env : CheckEnv) (db : DB)
    (hq : env.upQueryFails = false) :
    (sendUpNotification m env db).db.dispatches =
      db.dispatches ++ [Dispatch.up m.id m.user_email (downDurationOf m env.now db.history)] ∧
    (downRecords m.id db.history ≠ [] →
      ∃ r, r ∈ downRecords m.id db.history ∧
        (∀ x ∈ downRecords m.id db.history, x.checked_at ≤ r.checked_at) ∧
        downDurationOf m env.now db.history = some (formatDuration (env.now - r.checked_at))) ∧
    (downRecords m.id db.history = [] →
      downDurationOf m env.now db.history =
        Option.map (fun t => formatDuration (env.now - t)) m.last_notification_sent) := by
  refine ⟨?_, ?_, ?_⟩
  · simp only [sendUpNotification, swallow_spec]
    unfold sendUpBody
    rw [hq]
    dsimp only
    rcases hd : env.upDelegate with ⟨s, e⟩ | msg <;>
      cases hlog : env.upLogFails <;> simp [logNotification]
  · intro hne
    rcases h : lastDownRecord m.id db.history with _ | r
    · obtain ⟨habs, -⟩ := (foldl_pickLater_spec (downRecords m.id db.history) none).1 h
      exact absurd habs hne
    · obtain ⟨hmem, hall, -⟩ :=
        (foldl_pickLater_spec (downRecords m.id db.history) none).2 r h
      refine ⟨r, ?_, hall, ?_⟩
      · rcases hmem with h2 | h2
        · exact h2
        · exact absurd h2 (by simp)
      · unfold downDurationOf
        rw [h]
  · intro he
    have hnone : lastDownRecord m.id db.history = none := by
      unfold lastDownRecord
      rw [he]
      rfl
    unfold downDurationOf
    rw [hnone]
    rcases m.last_notification_sent with _ | t <;> simp

/-- Witness for C5: the down monitor over `hist3`. -/
theorem up_notification_duration_witness :
    (sendUpNotification monDown cleanEnv dbDown).db.dispatches =
      dbDown.dispatches ++ [Dispatch.up monDown.id monDown.user_email
        (downDurationOf monDown cleanEnv.now dbDown.history)] ∧
    (downRecords monDown.id dbDown.history ≠ [] →
      ∃ r, r ∈ downRecords monDown.id dbDown.history ∧
        (∀ x ∈ downRecords monDown.id dbDown.history, x.checked_at ≤ r.checked_at) ∧
        downDurationOf monDown cleanEnv.now dbDown.history =
          some (formatDuration (cleanEnv.now - r.checked_at))) ∧
    (downRecords monDown.id dbDown.history = [] →
      downDurationOf monDown cleanEnv.now dbDown.history =
        Option.map (fun t => formatDuration (cleanEnv.now - t)) monDown.last_notification_sent) :=
  up_notification_duration monDown cleanEnv dbDown (by decide)

/-- With the notifications-enabled flag unset, transition handling is a
no-op. -/
theorem handleStatusChange_disabled (m : Monitor) (ns : Status) (env : CheckEnv) (db : DB)
    (h : m.notifications_enabled = false) :
    handleStatusChange m ns env db = { db := db, err := none } := by
  unfold handleStatusChange
  dsimp only
  simp [h]

/-- Sequencing preserves the id/flag projection of the monitors table
when both steps do. -/
theorem monitorKey_andThen (o : Outcome) (f : DB → Outcome) (k : List (Nat × Bool))
    (ho : monitorKey o.db = k) (hf : ∀ d, monitorKey d = k → monitorKey (f d).db = k) :
    monitorKey (andThen o f).db = k := by
  unfold andThen
  cases he : o.err
  · exact hf o.db ho
  · exact ho

/-- The status overwrite keeps every monitor's id and enabled flag. -/
theorem monitorKey_update (i : Nat) (st : Status) (rt : Option Nat) (now : Nat) (f : Bool)
    (db : DB) : monitorKey (updateMonitorStatus i st rt now f db).db = monitorKey db := by
  unfold updateMonitorStatus monitorKey
  split
  · rfl
  · dsimp only
    rw [List.map_map]
    apply List.map_congr_left
    intro x _
    by_cases h : x.id = i <;> simp [h]

/-- The timestamp update keeps every monitor's id and enabled flag. -/
theorem monitorKey_setLNS (i now : Nat) (f : Bool) (db : DB) :
    monitorKey (setLastNotificationSent i now f db).db = monitorKey db := by
  unfold setLastNotificationSent monitorKey
  split
  · rfl
  · dsimp only
    rw [List.map_map]
    apply List.map_congr_left
    intro x _
    by_cases h : x.id = i <;> simp [h]

/-- The down-notification body keeps every monitor's id and enabled
flag. -/
theorem monitorKey_sendDownBody (m : Monitor) (env : CheckEnv) (db : DB) :
    monitorKey (sendDownBody m env db).db = monitorKey db := by
  unfold sendDownBody
  rcases hd : env.downDelegate with ⟨s, e⟩ | msg
  · dsimp only
    apply monitorKey_andThen _ _ _ (by simp [monitorKey, logNotification_monitors])
    intro d hd2
    cases s
    · simpa [monitorKey]
    · rw [if_pos rfl, monitorKey_setLNS]
      exact hd2
  · simp [monitorKey]

/-- The up-notification body keeps every monitor's id and enabled
flag. -/
theorem monitorKey_sendUpBody (m : Monitor) (env : CheckEnv) (db : DB) :
    monitorKey (sendUpBody m env db).db = monitorKey db := by
  unfold sendUpBody
  cases hq : env.upQueryFails
  · dsimp only
    rcases hd : env.upDelegate with ⟨s, e⟩ | msg <;>
      simp [monitorKey, logNotification_monitors]
  · rfl

/-- Transition handling keeps every monitor's id and enabled flag. -/
theorem monitorKey_handleStatusChange (m : Monitor) (ns : Status) (env : CheckEnv) (db : DB) :
    monitorKey (handleStatusChange m ns env db).db = monitorKey db := by
  unfold handleStatusChange
  dsimp only
  split
  · split
    · apply monitorKey_andThen _ _ _ (by simp [sendDownNotification, monitorKey_sendDownBody])
      intro d hd2
      rw [monitorKey_setLNS]
      exact hd2
    · split
      · simp [sendUpNotification, monitorKey_sendUpBody]
      · rfl
  · rfl

/-- One whole check keeps every monitor's id and enabled flag: the
engine never flips a notifications-enabled flag. -/
theorem monitorKey_checkMonitor (m : Monitor) (env : CheckEnv) (db : DB) :
    monitorKey (checkMonitor m env db).db = monitorKey db := by
  unfold checkMonitor
  dsimp only
  apply monitorKey_andThen _ _ _ (monitorKey_update _ _ _ _ _ _)
  intro d hd
  apply monitorKey_andThen _ _ _ (by rw [monitorKey_handleStatusChange]; exact hd)
  intro d2 hd2
  rw [show monitorKey (logStatusCheck m.id (probeOf env.prober).1 (probeOf env.prober).2.1
    (probeOf env.prober).2.2 env.now env.logCheckFails d2).db = monitorKey d2 by
      simp [monitorKey, logStatusCheck_monitors]]
  exact hd2

/-- A check of a monitor whose notifications are disabled writes no
notification-log row. -/
theorem checkMonitor_log_disabled (m : Monitor) (env : CheckEnv) (db : DB)
    (h : m.notifications_enabled = false) :
    (checkMonitor m env db).db.notification_log = db.notification_log := by
  unfold checkMonitor
  dsimp only
  cases hu : env.updateStatusFails
  · rw [andThen_of_err_none _ _ (by simp [updateMonitorStatus, hu])]
    rw [handleStatusChange_disabled _ _ _ _ h]
    rw [andThen_of_err_none _ _ rfl]
    simp
  · simp [updateMonitorStatus, hu, andThen]

/-- C6: a Monitor registered with the notifications-enabled flag unset
never produces a NotificationLogEntry, whatever sequence of probe
outcomes, transitions and failures its checks observe across any
number of sweeps — the engine never sets the flag, so every later
check still sees it unset. -/
theorem disabled_monitor_never_logs (monitorId : Nat) (envs : List CheckEnv) (db : DB)
    (h : ∀ m ∈ db.monitors, m.id = monitorId → m.notifications_enabled = false) :
    (runChecks monitorId envs db).notification_log = db.notification_log := by
  induction envs generalizing db with
  | nil => rfl
  | cons e rest ih =>
      unfold runChecks
      rcases hf : findMonitor monitorId db with _ | m
      · exact ih db h
      · have hmem : m ∈ db.monitors := List.mem_of_find?_eq_some hf
        have hid : m.id = monitorId := by
          have hpred := List.find?_some hf
          simpa using hpred
        have hflag : m.notifications_enabled = false := h m hmem hid
        have hlog := checkMonitor_log_disabled m e db hflag
        rw [ih (checkMonitor m e db).db ?_, hlog]
        intro x hx hxid
        have hkey := monitorKey_checkMonitor m e db
        have hx2 : (x.id, x.notifications_enabled) ∈ monitorKey db := by
          rw [← hkey]
          exact List.mem_map_of_mem _ hx
        obtain ⟨y, hy, hyeq⟩ := List.mem_map.mp hx2
        have hy1 : y.id = x.id := (Prod.mk.injEq _ _ _ _ |>.mp hyeq).1
        have hy2 : y.notifications_enabled = x.notifications_enabled :=
          (Prod.mk.injEq _ _ _ _ |>.mp hyeq).2
        rw [← hy2]
        exact h y hy (by rw [hy1, hxid])

/-- Witness for C6: pending → up → down → up with the flag unset
leaves the notification log untouched. -/
theorem disabled_monitor_never_logs_witness :
    (runChecks 1 [cleanEnv, envSendFails, cleanEnv] dbQuiet).notification_log =
      dbQuiet.notification_log :=
  disabled_monitor_never_logs 1 [cleanEnv, envSendFails, cleanEnv] dbQuiet (by decide)
